import Mathlib

/-!
Verification of the Virtual-Mood-Board single-page application.

The development shallowly embeds the parts of the code base the claims
talk about:

* the service layer (a Gemini-style request/response gateway):
  response demultiplexing of reply parts into image/text slots, the
  fenced-JSON extraction helper, and the error taxonomy of
  the five operations;
* the React application state: the state record, the reset helpers and
  the moodboard/upload/click handlers' synchronous state transitions, the
  prompt assembly, and the click-to-pixel coordinate mapping.

Modelling conventions:

* JavaScript strings are Lean `String`s (internally `List Char`);
  JavaScript numbers used for coordinates are modelled as `ℚ` (the code
  manipulates them with exact rational formulas);
* a JSON value parsed by the platform's JSON.parse is modelled by the
  `Json` inductive below; number literals are kept verbatim as the
  consumed text, and duplicate object keys overwrite in place as in
  JavaScript;
* JavaScript truthiness tests on strings / parsed JSON are modelled
  explicitly (empty string, null, false and numeric zero are falsy);
* the regular expression used by the fenced-JSON extraction helper is
  modelled operationally with the engine's leftmost search order, the
  greedy optional "json" tag and leading/trailing whitespace, and the
  lazy middle group;
* `await`-suspended network calls are abstracted by passing the reply
  value as an argument; the synchronous part of a handler is embedded as
  a state-to-state function.
-/

/-! ### Character helpers -/

/-- The backtick character (written via its code point). -/
def tick : Char := Char.ofNat 96

/-- Whitespace for the purposes of the regex class and String.trim
(ASCII whitespace; the code's inputs are ASCII around the fences). -/
def wsChar (c : Char) : Bool :=
  match c with
  | ' ' | '\t' | '\n' | '\r' | '\x0b' | '\x0c' => true
  | _ => false

/-- Whitespace accepted between JSON tokens by JSON.parse. -/
def jsonWsChar (c : Char) : Bool :=
  match c with
  | ' ' | '\t' | '\n' | '\r' => true
  | _ => false

/-- ASCII decimal digit test. -/
def digitChar (c : Char) : Bool := '0' ≤ c && c ≤ '9'

/-- Drop JSON inter-token whitespace. -/
def skipJsonWs (l : List Char) : List Char := l.dropWhile jsonWsChar

/-- Both-ends trim with the `wsChar` class (String.prototype.trim). -/
def trimWs (l : List Char) : List Char :=
  ((l.dropWhile wsChar).reverse.dropWhile wsChar).reverse

/-- Value of a hexadecimal digit. -/
def hexVal (c : Char) : Option Nat :=
  let n := c.toNat
  if 48 ≤ n ∧ n ≤ 57 then some (n - 48)
  else if 97 ≤ n ∧ n ≤ 102 then some (n - 87)
  else if 65 ≤ n ∧ n ≤ 70 then some (n - 55)
  else none

/-! ### JSON values

A parsed JSON document as produced by JSON.parse.  Numbers keep the
exact literal consumed from the input; object members keep first-insertion
order with later duplicate keys overwriting in place, as JavaScript
objects do. -/

inductive Json where
  | null
  | bool (b : Bool)
  | num (lit : String)
  | str (s : String)
  | arr (elems : List Json)
  | obj (members : List (String × Json))

/-- JavaScript object member insertion: a duplicate key keeps its first
position but receives the new value. -/
def insertMember (ms : List (String × Json)) (k : String) (v : Json) :
    List (String × Json) :=
  if ms.any (fun p => p.1 == k) then
    ms.map (fun p => if p.1 == k then (k, v) else p)
  else ms ++ [(k, v)]

/-- Decode one string-escape character (JSON grammar). -/
def escMap (e : Char) : Option Char :=
  if e == '"' then some '"'
  else if e == '\\' then some '\\'
  else if e == '/' then some '/'
  else if e == 'b' then some '\x08'
  else if e == 'f' then some '\x0c'
  else if e == 'n' then some '\n'
  else if e == 'r' then some '\r'
  else if e == 't' then some '\t'
  else none

/-- Parse a JSON string body after the opening quote, returning the
decoded characters and the rest of the input.  Raw control characters
are rejected, as JSON.parse rejects them. -/
def parseStrBody : List Char → Option (List Char × List Char)
  | [] => none
  | '"' :: rest => some ([], rest)
  | '\\' :: 'u' :: a :: b :: c :: d :: rest =>
    match hexVal a, hexVal b, hexVal c, hexVal d with
    | some va, some vb, some vc, some vd =>
      match parseStrBody rest with
      | some (cs, r) =>
        some (Char.ofNat (((va * 16 + vb) * 16 + vc) * 16 + vd) :: cs, r)
      | none => none
    | _, _, _, _ => none
  | '\\' :: e :: rest =>
    match escMap e with
    | some ch =>
      match parseStrBody rest with
      | some (cs, r) => some (ch :: cs, r)
      | none => none
    | none => none
  | c :: rest =>
    if c.toNat < 32 then none
    else
      match parseStrBody rest with
      | some (cs, r) => some (c :: cs, r)
      | none => none

/-- Fraction part of a JSON number (possibly empty). -/
def parseFrac (rest : List Char) : Option (List Char × List Char) :=
  match rest with
  | '.' :: r =>
    let ds := r.takeWhile digitChar
    if ds.isEmpty then none else some ('.' :: ds, r.dropWhile digitChar)
  | _ => some ([], rest)

/-- Exponent part of a JSON number (possibly empty). -/
def parseExp (rest : List Char) : Option (List Char × List Char) :=
  match rest with
  | c :: r =>
    if c == 'e' || c == 'E' then
      let (sg, r1) := match r with
        | '+' :: r' => ((['+'] : List Char), r')
        | '-' :: r' => ((['-'] : List Char), r')
        | _ => (([] : List Char), r)
      let ds := r1.takeWhile digitChar
      if ds.isEmpty then none else some (c :: (sg ++ ds), r1.dropWhile digitChar)
    else some ([], c :: r)
  | [] => some ([], [])

/-- Parse a JSON number, returning the literal exactly as consumed and
the rest of the input.  The integer part follows the strict grammar: a
lone zero or a nonzero digit followed by digits. -/
def parseNumLit (l : List Char) : Option (List Char × List Char) :=
  let (sgn, l1) := match l with
    | '-' :: r => ((['-'] : List Char), r)
    | _ => (([] : List Char), l)
  let intPart : Option (List Char × List Char) := match l1 with
    | '0' :: r2 => some ((['0'] : List Char), r2)
    | c :: r2 =>
      if digitChar c && !(c == '0') then
        some (c :: r2.takeWhile digitChar, r2.dropWhile digitChar)
      else none
    | [] => none
  match intPart with
  | none => none
  | some (ids, r3) =>
    match parseFrac r3 with
    | none => none
    | some (fr, r4) =>
      match parseExp r4 with
      | none => none
      | some (ex, r5) => some (sgn ++ ids ++ fr ++ ex, r5)

/-- Strip an expected keyword prefix, giving what follows it. -/
def stripLitChars : List Char → List Char → Option (List Char)
  | [], rest => some rest
  | p :: ps, c :: cs => if c = p then stripLitChars ps cs else none
  | _ :: _, [] => none

mutual

/-- Parse one JSON value (fuelled recursive descent). -/
def parseVal : Nat → List Char → Option (Json × List Char)
  | 0, _ => none
  | fuel + 1, cs =>
    let t := skipJsonWs cs
    match stripLitChars ("null").data t with
    | some r => some (.null, r)
    | none =>
      match stripLitChars ("true").data t with
      | some r => some (.bool true, r)
      | none =>
        match stripLitChars ("false").data t with
        | some r => some (.bool false, r)
        | none =>
          match t with
          | '"' :: r =>
            (match parseStrBody r with
             | some (scs, r') => some (.str (String.mk scs), r')
             | none => none)
          | '[' :: r =>
            (match skipJsonWs r with
             | ']' :: r' => some (.arr [], r')
             | other => parseElemsAcc fuel [] other)
          | '\x7b' :: r =>
            (match skipJsonWs r with
             | '\x7d' :: r' => some (.obj [], r')
             | other => parseMembersAcc fuel [] other)
          | c :: rest =>
            if c == '-' || digitChar c then
              match parseNumLit (c :: rest) with
              | some (lit, r') => some (.num (String.mk lit), r')
              | none => none
            else none
          | [] => none

/-- Parse the remaining comma-separated array elements. -/
def parseElemsAcc : Nat → List Json → List Char → Option (Json × List Char)
  | 0, _, _ => none
  | fuel + 1, acc, cs =>
    match parseVal fuel cs with
    | some (v, r) =>
      (match skipJsonWs r with
       | ',' :: r' => parseElemsAcc fuel (acc ++ [v]) r'
       | ']' :: r' => some (.arr (acc ++ [v]), r')
       | _ => none)
    | none => none

/-- Parse the remaining comma-separated object members. -/
def parseMembersAcc :
    Nat → List (String × Json) → List Char → Option (Json × List Char)
  | 0, _, _ => none
  | fuel + 1, acc, cs =>
    match skipJsonWs cs with
    | '"' :: r =>
      (match parseStrBody r with
       | some (kcs, r1) =>
         (match skipJsonWs r1 with
          | ':' :: r2 =>
            (match parseVal fuel r2 with
             | some (v, r3) =>
               (match skipJsonWs r3 with
                | ',' :: r4 => parseMembersAcc fuel (insertMember acc (String.mk kcs) v) r4
                | '\x7d' :: r4 => some (.obj (insertMember acc (String.mk kcs) v), r4)
                | _ => none)
             | none => none)
          | _ => none)
       | none => none)
    | _ => none

end

/-- JSON.parse on a character list: parse one value, then require only
whitespace to remain; any failure yields none (the caller catches the
exception and returns null). -/
def jsonParse (l : List Char) : Option Json :=
  match parseVal (2 * l.length + 4) l with
  | some (j, rest) => if skipJsonWs rest = [] then some j else none
  | none => none

/-! ### Serialization of JSON values

JSON.stringify-style rendering (no added whitespace); number values
reproduce their stored literal. -/

/-- Hexadecimal digit character for a value below 16. -/
def hexDigit (n : Nat) : Char :=
  Char.ofNat (if n < 10 then 48 + n else 87 + n)

/-- Escape one character of a JSON string for output. -/
def escChar (c : Char) : List Char :=
  if c == '"' then ['\\', '"']
  else if c == '\\' then ['\\', '\\']
  else if c == '\x08' then ['\\', 'b']
  else if c == '\x0c' then ['\\', 'f']
  else if c == '\n' then ['\\', 'n']
  else if c == '\r' then ['\\', 'r']
  else if c == '\t' then ['\\', 't']
  else if c.toNat < 32 then ['\\', 'u', '0', '0', hexDigit (c.toNat / 16), hexDigit (c.toNat % 16)]
  else [c]

/-- Escape a whole string body for output. -/
def renderStrChars (s : List Char) : List Char := (s.map escChar).flatten

/-- A rendered string, quotes included. -/
def renderStrLit (s : String) : List Char := '"' :: (renderStrChars s.data ++ ['"'])

/-- Comma-join rendered fragments. -/
def joinComma (ls : List (List Char)) : List Char := List.intercalate [','] ls

mutual

/-- Render a JSON value to characters. -/
def renderChars : Json → List Char
  | .null => ("null").data
  | .bool true => ("true").data
  | .bool false => ("false").data
  | .num lit => lit.data
  | .str s => renderStrLit s
  | .arr es => '[' :: (joinComma (renderCharsList es) ++ [']'])
  | .obj ms => '\x7b' :: (joinComma (renderCharsMembers ms) ++ ['\x7d'])

/-- Render the elements of an array. -/
def renderCharsList : List Json → List (List Char)
  | [] => []
  | e :: es => renderChars e :: renderCharsList es

/-- Render the members of an object. -/
def renderCharsMembers : List (String × Json) → List (List Char)
  | [] => []
  | (k, v) :: ms => (renderStrLit k ++ ':' :: renderChars v) :: renderCharsMembers ms

end

/-- Serialization of a JSON value as a string. -/
def render (j : Json) : String := String.mk (renderChars j)

/-- A stored number literal is wellformed when it is nonempty and free of
whitespace, as every literal produced by the number grammar is. -/
def numLitWF (lit : String) : Bool :=
  !lit.data.isEmpty && lit.data.all (fun c => !wsChar c)

mutual

/-- Wellformedness of a JSON value: every number literal inside is
nonempty and whitespace-free. -/
def Json.wf : Json → Bool
  | .null => true
  | .bool _ => true
  | .num lit => numLitWF lit
  | .str _ => true
  | .arr es => Json.wfList es
  | .obj ms => Json.wfMembers ms

/-- Wellformedness of array elements. -/
def Json.wfList : List Json → Bool
  | [] => true
  | e :: es => Json.wf e && Json.wfList es

/-- Wellformedness of object member values. -/
def Json.wfMembers : List (String × Json) → Bool
  | [] => true
  | (_, v) :: ms => Json.wf v && Json.wfMembers ms

end

/-! ### The fenced-code-block extraction helper

The helper matches the fixed pattern

  three backticks, an optional literal json tag, optional whitespace, a
  lazy nonempty group of arbitrary characters, optional whitespace,
  three backticks

against the text (leftmost match, backtracking order of the engine:
the optional tag is tried greedily, the leading whitespace greedily from
longest to shortest, the group lazily from shortest to longest), and
takes the group when the pattern matches. -/

/-- Does the list begin with three backticks? -/
def startsWithFence (l : List Char) : Bool :=
  match l with
  | a :: b :: c :: _ => a == tick && b == tick && c == tick
  | _ => false

/-- Can the trailing context match: optional whitespace then a fence? -/
def isWsThenFence (l : List Char) : Bool :=
  startsWithFence (l.dropWhile wsChar)

/-- Lazy group search: extend the nonempty group one character at a time
until the rest of the input matches the trailing context. -/
def findMinG : List Char → List Char → Option (List Char)
  | _, [] => none
  | acc, c :: cs =>
    if isWsThenFence cs then some (acc ++ [c]) else findMinG (acc ++ [c]) cs

/-- Leading-whitespace backtracking: try consuming k whitespace
characters before the group, from longest to shortest. -/
def tryBodyAux (r : List Char) : Nat → Option (List Char)
  | 0 => findMinG [] r
  | k + 1 =>
    match findMinG [] (r.drop (k + 1)) with
    | some g => some g
    | none => tryBodyAux r k

/-- Match whitespace, lazy group, whitespace, closing fence against r. -/
def tryBody (r : List Char) : Option (List Char) :=
  tryBodyAux r (r.takeWhile wsChar).length

/-- After an opening fence: try the literal json tag greedily, falling
back to matching without it. -/
def tryAfterTicks (t : List Char) : Option (List Char) :=
  match t with
  | 'j' :: 's' :: 'o' :: 'n' :: rest =>
    (match tryBody rest with
     | some g => some g
     | none => tryBody t)
  | _ => tryBody t

/-- Leftmost search for the fenced pattern; returns the matched group. -/
def findFenceMatch : List Char → Option (List Char)
  | [] => none
  | c :: cs =>
    if startsWithFence (c :: cs) then
      match tryAfterTicks (cs.drop 2) with
      | some g => some g
      | none => findFenceMatch cs
    else findFenceMatch cs

/-- The service helper parseJsonFromMarkdown: extract the fenced group
when the pattern matches (it is always nonempty, hence truthy), else the
whole text; trim; JSON.parse, with null (here none) on parse failure. -/
def parseJsonFromMarkdown (text : String) : Option Json :=
  let jsonString := match findFenceMatch text.data with
    | some g => trimWs g
    | none => trimWs text.data
  jsonParse jsonString

/-! ### JavaScript truthiness of parsed JSON values -/

/-- Is the mantissa of a number literal all zero digits? -/
def numLitIsZero (lit : String) : Bool :=
  (lit.data.takeWhile (fun c => !(c == 'e' || c == 'E'))).all
    (fun c => c == '0' || c == '-' || c == '.' || c == '+')

/-- JavaScript truthiness of a parsed JSON value: null, false, the empty
string and numeric zero are falsy; arrays and objects are truthy. -/
def jsTruthyJson (j : Json) : Bool :=
  match j with
  | .null => false
  | .bool b => b
  | .num lit => !numLitIsZero lit
  | .str s => !(s == "")
  | .arr _ => true
  | .obj _ => true

/-! ### The service gateway (geminiService.ts)

A reply part (ReplyPart, the SDK Part) carries either text or inline image data; a reply carries
an optional prompt-feedback block reason and a candidate list.  The
network call itself is abstracted: each service function takes the reply
it would have received and returns the value or error message the
original produces from it. -/

inductive ReplyPart where
  | textPart (text : String)
  | imagePart (data : String) (mimeType : String)

/-- A reply candidate (content.parts). -/
structure Candidate where
  parts : List ReplyPart

/-- A generateContent reply. -/
structure GenerateContentResponse where
  blockReason : Option String
  candidates : List Candidate

/-- The shared helper callGeminiModel: reject a blocked prompt, reject
an empty candidate list, and hand back the first candidate's parts. -/
def callGeminiModel (resp : GenerateContentResponse) : Except String (List ReplyPart) :=
  match resp.blockReason with
  | some reason => .error ("Request was blocked due to: " ++ reason)
  | none =>
    match resp.candidates with
    | [] => .error ("The AI did not return a response. It may have been filtered for safety reasons.")
    | c :: _ => .ok c.parts

/-- A data URI assembled from a part's inline data. -/
def dataUrl (mimeType data : String) : String :=
  "data:" ++ mimeType ++ ";base64," ++ data

/-- Does the parts list contain an inline-image part? -/
def hasImagePart (parts : List ReplyPart) : Bool :=
  parts.any (fun p => match p with
    | .imagePart _ _ => true
    | .textPart _ => false)

/-- The demultiplexing loop shared by generateMoodboard and
generateCompositeImage: the last image part (as a data URI) and the last
nonempty text (an empty text is falsy and skipped). -/
def stepImageText (acc : Option String × Option String) (p : ReplyPart) :
    Option String × Option String :=
  match p with
  | .textPart s => if s = "" then acc else (acc.1, some s)
  | .imagePart data mime => (some (dataUrl mime data), acc.2)

def collectImageAndText (parts : List ReplyPart) : Option String × Option String :=
  parts.foldl stepImageText (none, none)

/-- The contents of the nonempty text parts of a reply, in order; the
excerpt-bearing composite failure message quotes the last of them. -/
def nonemptyTexts (parts : List ReplyPart) : List String :=
  parts.filterMap (fun p =>
    match p with
    | .textPart s => if s = "" then none else some s
    | .imagePart _ _ => none)

/-- The demultiplexing loop of getElementDetails: the last image part
and the fenced-JSON parse of the last nonempty text. -/
def stepImageDetails (acc : Option String × Option Json) (p : ReplyPart) :
    Option String × Option Json :=
  match p with
  | .textPart s => if s = "" then acc else (acc.1, parseJsonFromMarkdown s)
  | .imagePart data mime => (some (dataUrl mime data), acc.2)

def collectImageAndDetails (parts : List ReplyPart) : Option String × Option Json :=
  parts.foldl stepImageDetails (none, none)

/-! ### types.ts records -/

/-- A color swatch (types.ts ColorInfo). -/
structure ColorInfo where
  hex : String
  name : String
  role : String

/-- The mood-board generation result (types.ts GeneratedResult). -/
structure GeneratedResult where
  imageUrl : Option String
  text : Option String
  colors : List ColorInfo

/-- types.ts ElementDetails.style. -/
structure StyleInfo where
  primary : String
  secondary : List String
  era : String

/-- types.ts ElementDetails.materials. -/
structure MaterialsInfo where
  primary : String
  secondary : List String
  finish : String

/-- types.ts ElementDetails.colors. -/
structure ColorsInfo where
  dominant : String
  accent : List String
  colorScheme : String

/-- types.ts ElementDetails.dimensions. -/
structure DimensionsInfo where
  estimated : Bool
  scale : String
  proportions : String

/-- types.ts ElementDetails.description. -/
structure DescriptionInfo where
  overview : String
  distinctiveFeatures : List String
  functionality : String
  condition : String

/-- types.ts ElementDetails.market. -/
structure MarketInfo where
  estimatedValue : String
  availability : String
  brands : List String
  whereToBuy : List String

/-- types.ts ElementDetails.culturalContext. -/
structure CulturalContextInfo where
  origin : String
  significance : String
  modernRelevance : String

/-- types.ts ElementDetails.technicalDetails. -/
structure TechnicalDetailsInfo where
  constructionMethod : String
  qualityIndicators : List String
  maintenance : String

/-- types.ts ElementDetails.recommendations. -/
structure RecommendationsInfo where
  similarItems : List String
  styling : String
  occasions : List String

/-- types.ts ElementDetails.metadata. -/
structure MetadataInfo where
  confidence : ℚ
  analysisTimestamp : String
  elementPosition : String
  imageQuality : String

/-- types.ts ElementDetails.  The element type is a string tag at run
time (the switch in findSimilarItems has a default branch for anything
else). -/
structure ElementDetails where
  elementType : String
  name : String
  category : String
  subcategory : String
  style : StyleInfo
  materials : MaterialsInfo
  colors : ColorsInfo
  dimensions : DimensionsInfo
  description : DescriptionInfo
  market : MarketInfo
  culturalContext : CulturalContextInfo
  technicalDetails : TechnicalDetailsInfo
  recommendations : RecommendationsInfo
  metadata : MetadataInfo

/-- Result of the element-details service call as actually built: the
generated image data URI and the (truthy) parsed JSON details. -/
structure ElementDetailsServiceResult where
  imageUrl : String
  details : Json

/-- types.ts ElementDetailsResult, as held in the application state. -/
structure ElementDetailsResult where
  imageUrl : String
  details : Option ElementDetails

/-- A grounded-search hit (types.ts SimilarItem). -/
structure SimilarItem where
  title : String
  uri : String

/-! ### The five service operations (reply processing) -/

/-- generateMoodboard before its catch clause. -/
def generateMoodboardCore (resp : GenerateContentResponse) :
    Except String GeneratedResult :=
  match callGeminiModel resp with
  | .error m => .error m
  | .ok parts =>
    match collectImageAndText parts with
    | (none, _) => .error ("The AI did not return an image. It may have been filtered for safety reasons or the prompt was unclear.")
    | (some u, tx) => .ok ⟨some u, tx, []⟩

/-- generateMoodboard: the reply is demultiplexed into the last image
part and last nonempty text; a missing image is an error; every error is
rewrapped by the catch clause. -/
def generateMoodboard (resp : GenerateContentResponse) :
    Except String GeneratedResult :=
  match generateMoodboardCore resp with
  | .error m => .error ("Failed to generate mood board: " ++ m)
  | .ok r => .ok r

/-- getElementDetails before its catch clause: a missing image part is
one error; a missing/unparseable/falsy details value is another. -/
def getElementDetailsCore (resp : GenerateContentResponse) :
    Except String ElementDetailsServiceResult :=
  match callGeminiModel resp with
  | .error m => .error m
  | .ok parts =>
    match collectImageAndDetails parts with
    | (none, _) => .error ("The AI failed to generate an image for the selected element.")
    | (some u, det) =>
      match det with
      | some j =>
        if jsTruthyJson j then .ok ⟨u, j⟩
        else .error ("The AI failed to provide valid details for the selected element. The response was not valid JSON.")
      | none => .error ("The AI failed to provide valid details for the selected element. The response was not valid JSON.")

/-- getElementDetails with the catch-clause rewrapping. -/
def getElementDetails (resp : GenerateContentResponse) :
    Except String ElementDetailsServiceResult :=
  match getElementDetailsCore resp with
  | .error m => .error ("Failed to get element details: " ++ m)
  | .ok r => .ok r

/-- enhanceImageTo8K before its catch clause: the first image part wins;
no image part is an error. -/
def enhanceImageTo8KCore (resp : GenerateContentResponse) : Except String String :=
  match callGeminiModel resp with
  | .error m => .error m
  | .ok parts =>
    match parts.foldl
        (fun acc p =>
          match acc, p with
          | some u, _ => some u
          | none, .imagePart data mime => some (dataUrl mime data)
          | none, .textPart _ => none)
        none with
    | some u => .ok u
    | none => .error ("The AI did not return an enhanced image. It may have been filtered.")

/-- enhanceImageTo8K with the catch-clause rewrapping. -/
def enhanceImageTo8K (resp : GenerateContentResponse) : Except String String :=
  match enhanceImageTo8KCore resp with
  | .error m => .error ("Failed to enhance image: " ++ m)
  | .ok r => .ok r

/-- JavaScript String.prototype.substring(0, n). -/
def substringTo (s : String) (n : Nat) : String := String.mk (s.data.take n)

/-- The text-instead-of-image failure message of generateCompositeImage
(after the catch-clause rewrapping), embedding a truncated excerpt. -/
def compositeTextMsg (t : String) : String :=
  "Failed to generate composite image: " ++
    ("The AI returned text instead of an image. Response: \"" ++ substringTo t 150 ++ "...\"")

/-- The empty-or-filtered failure message of generateCompositeImage
(after the catch-clause rewrapping). -/
def compositeEmptyMsg : String :=
  "Failed to generate composite image: " ++
    "The AI did not return a composite image. The response was empty or filtered."

/-- generateCompositeImage before its catch clause: an image part wins;
otherwise a nonempty text part produces an error carrying its first 150
characters; otherwise the reply counts as empty or filtered. -/
def generateCompositeImageCore (resp : GenerateContentResponse) : Except String String :=
  match callGeminiModel resp with
  | .error m => .error m
  | .ok parts =>
    match collectImageAndText parts with
    | (some u, _) => .ok u
    | (none, some t) => .error ("The AI returned text instead of an image. Response: \"" ++ substringTo t 150 ++ "...\"")
    | (none, none) => .error ("The AI did not return a composite image. The response was empty or filtered.")

/-- generateCompositeImage with the catch-clause rewrapping. -/
def generateCompositeImage (resp : GenerateContentResponse) : Except String String :=
  match generateCompositeImageCore resp with
  | .error m => .error ("Failed to generate composite image: " ++ m)
  | .ok r => .ok r

/-! ### findSimilarItems -/

/-- A grounding chunk's web record. -/
structure WebInfo where
  uri : Option String
  title : Option String

/-- A grounding chunk. -/
structure GroundingChunk where
  web : Option WebInfo

/-- The groundingMetadata record of a grounded reply candidate. -/
structure GroundingMetadata where
  groundingChunks : Option (List GroundingChunk)

/-- A candidate of a grounded-search reply. -/
structure GroundingCandidate where
  groundingMetadata : Option GroundingMetadata

/-- A grounded-search reply. -/
structure GroundedResponse where
  candidates : List GroundingCandidate

/-- The optional-chaining walk candidates[0].groundingMetadata.groundingChunks. -/
def chunksOf (resp : GroundedResponse) : Option (List GroundingChunk) :=
  match resp.candidates with
  | [] => none
  | c :: _ =>
    match c.groundingMetadata with
    | none => none
    | some m => m.groundingChunks

/-- The search prompt chosen by findSimilarItems from the element-type
tag of the input details. -/
def buildSimilarQuery (details : ElementDetails) : String :=
  if details.elementType = "fashion_item" ∨ details.elementType = "product" then
    "Find the product named \"" ++ details.name ++ "\" on e-commerce websites like Amazon, Myntra, H&M, or other relevant online stores. Prioritize direct shopping links."
  else if details.elementType = "architectural_feature" then
    "Find the location of the building or landmark known as \"" ++ details.name ++ "\" on Google Maps. Provide a direct link to the location."
  else if details.elementType = "food_item" then
    "Find recipes for \"" ++ details.name ++ "\" from Zomato, food wikis, or popular recipe blogs."
  else if details.elementType = "design_element" then
    "Find similar artwork or designs to \"" ++ details.name ++ "\" on Pinterest, Behance, or Dribbble."
  else
    "Find more information and relevant links for \"" ++ details.name ++ "\"."

/-- Map one grounding chunk to a SimilarItem: a missing or empty web
title falls back to Untitled; a missing web uri falls back to empty. -/
def chunkToItem (chunk : GroundingChunk) : SimilarItem :=
  ⟨(match chunk.web with
    | some w =>
      (match w.title with
       | some t => if t = "" then "Untitled" else t
       | none => "Untitled")
    | none => "Untitled"),
   (match chunk.web with
    | some w =>
      (match w.uri with
       | some u => u
       | none => "")
    | none => "")⟩

/-- findSimilarItems reply processing: with a nonempty chunk list, map
chunks to items and keep those with a truthy (nonempty) uri; otherwise
return the empty list.  (The chosen request prompt is buildSimilarQuery;
the only throw sites rewrap transport failures of the call itself, which
the reply argument abstracts.) -/
def findSimilarItems (details : ElementDetails) (resp : GroundedResponse) :
    List SimilarItem :=
  let _query : String := buildSimilarQuery details
  match chunksOf resp with
  | some chunks =>
    if chunks.length > 0 then
      (chunks.map chunkToItem).filter (fun it => !(it.uri == ""))
    else []
  | none => []

/-! ### The application component (App.tsx)

The state record collects every useState slot of the component.  A
handler's synchronous prefix (the state updates it performs before or
without awaiting the network) is embedded as a function on the state
record; the browser's URL.createObjectURL is modelled as a deterministic
function of the file. -/

/-- An uploaded file: an identity and a declared media type. -/
structure ImageFile where
  id : Nat
  mimeType : String
deriving DecidableEq

/-- URL.createObjectURL, modelled as a deterministic function of the
file it is given. -/
def objectURL (f : ImageFile) : String := "blob:" ++ toString f.id

/-- Every useState slot of the App component. -/
structure AppState where
  primaryImageFile : Option ImageFile
  primaryImagePreview : Option String
  secondaryImageFile : Option ImageFile
  secondaryImagePreview : Option String
  imageType : String
  customImageType : String
  userPrompt : String
  generatedResult : Option GeneratedResult
  isLoading : Bool
  error : Option String
  elementDetailsResult : Option ElementDetailsResult
  isElementLoading : Bool
  elementError : Option String
  clickPosition : Option (ℚ × ℚ)
  isEnhancing : Bool
  enhancementError : Option String
  similarItems : Option (List SimilarItem)
  isFindingSimilar : Bool
  findSimilarError : Option String
  compositeResultUrl : Option String
  isGeneratingComposite : Bool
  compositeError : Option String

/-- resetAllOutputs: clear every result slot and error slot. -/
def resetAllOutputs (s : AppState) : AppState :=
  { s with
    generatedResult := none
    elementDetailsResult := none
    clickPosition := none
    error := none
    elementError := none
    enhancementError := none
    similarItems := none
    findSimilarError := none
    compositeResultUrl := none
    compositeError := none }

/-- handlePrimaryImageUpload: store the file and its object URL as the
preview, drop the secondary image and preview, and reset all outputs. -/
def handlePrimaryImageUpload (f : ImageFile) (s : AppState) : AppState :=
  resetAllOutputs
    { s with
      primaryImageFile := some f
      primaryImagePreview := some (objectURL f)
      secondaryImageFile := none
      secondaryImagePreview := none }

/-- handleSecondaryImageUpload: store the file and its object URL. -/
def handleSecondaryImageUpload (f : ImageFile) (s : AppState) : AppState :=
  { s with
    secondaryImageFile := some f
    secondaryImagePreview := some (objectURL f) }

/-- The synchronous prefix of handleGenerateMoodboard: with no primary
image only the error slot is set; otherwise the loading flag is raised
and the listed slots are cleared before the request is issued.  (The
composite slots are not among them.) -/
def handleGenerateMoodboardStart (s : AppState) : AppState :=
  match s.primaryImageFile with
  | none => { s with error := some "Please upload the primary image first." }
  | some _ =>
    { s with
      isLoading := true
      generatedResult := none
      elementDetailsResult := none
      clickPosition := none
      error := none
      elementError := none
      enhancementError := none
      similarItems := none
      findSimilarError := none }

/-- The fixed mood-board instruction template, `DEFAULT_MOODBOARD_PROMPT` in `App.tsx`. -/
def DEFAULT_MOODBOARD_PROMPT : String :=
  "You are an expert visual analyst and mood board designer who creates clean, informative, and beautifully organized collages that break down any image into its component parts with shopping information and style insights.\n" ++
  "\n" ++
  "YOUR EXACT MISSION: Create a mood board that looks EXACTLY like a high-end fashion magazine\x27s shopping page or a professional interior designer\x27s client presentation board - clean, organized, shoppable, and annotated with personality.\n" ++
  "\n" ++
  "══════════════════" ++ "══════════════════" ++ "══════════════════" ++ "════════════════\n" ++
  "UNIVERSAL ANALYSIS FRAMEWORK - WORKS FOR ANY IMAGE TYPE\n" ++
  "══════════════════" ++ "══════════════════" ++ "══════════════════" ++ "════════════════\n" ++
  "\n" ++
  "STEP 1: IDENTIFY WHAT YOU\x27RE LOOKING AT\n" ++
  "Look at the image and categorize it:\n" ++
  "- FASHION/OUTFIT → Extract garments, accessories, shoes\n" ++
  "- INTERIOR/ROOM → Extract furniture, decor, materials  \n" ++
  "- PRODUCT → Extract components, packaging, details\n" ++
  "- LANDSCAPE/SCENE → Extract elements, colors, mood components\n" ++
  "- FOOD → Extract ingredients, plating, styling elements\n" ++
  "- ARTWORK → Extract techniques, colors, compositional elements\n" ++
  "\n" ++
  "STEP 2: EXTRACT REAL ELEMENTS (CRITICAL - NO INVENTING!)\n" ++
  "Create an inventory of ONLY things actually visible:\n" ++
  "- Main subject (centered, largest)\n" ++
  "- Individual components (8-12 items maximum)\n" ++
  "- Colors and textures\n" ++
  "- Patterns and details\n" ++
  "- Any text or branding visible\n" ++
  "\n" ++
  "STEP 3: CREATE THE MOOD BOARD COLLAGE\n" ++
  "\n" ++
  "EXACT VISUAL STYLE TO FOLLOW:\n" ++
  "\n" ++
  "BACKGROUND:\n" ++
  "- Soft, neutral background (#F5F5F0 to #FAFAF8)\n" ++
  "- Subtle paper texture (like craft paper or canvas)\n" ++
  "- Light beige/cream tones\n" ++
  "\n" ++
  "LAYOUT STRUCTURE:\n" ++
  "- CENTER: A clean, precise CUTOUT of the main subject (e.g., the person and their outfit, the piece of furniture). This cutout should be the focal point and occupy 40% of the canvas.\n" ++
  "  - The cutout MUST have clean edges, removing the original background entirely.\n" ++
  "  - Place this cutout on the mood board with a subtle drop shadow to make it pop.\n" ++
  "  \n" ++
  "- SURROUNDING ELEMENTS: Individual items arranged around center\n" ++
  "  - Each item in its own \"frame\":\n" ++
  "    * White polaroid-style borders OR\n" ++
  "    * Taped corners with washi tape effect OR  \n" ++
  "    * Clean cutouts with soft shadows\n" ++
  "  - Vary sizes (some bigger, some smaller)\n" ++
  "  - Slight rotation (5-15 degrees) for organic feel\n" ++
  "  - Overlapping is okay but maintain clarity\n" ++
  "\n" ++
  "ANNOTATION STYLE:\n" ++
  "- Hand-drawn arrows (curved, playful) pointing to elements\n" ++
  "- Handwritten-style labels in black or dark gray\n" ++
  "- Mix of fonts:\n" ++
  "  - Clean sans-serif for product names/brands\n" ++
  "  - Casual handwriting for descriptions\n" ++
  "  - Small typed font for sources/prices\n" ++
  "\n" ++
  "REQUIRED ANNOTATIONS FOR EACH ELEMENT:\n" ++
  "- Item name/type\n" ++
  "- Brand (if identifiable) or style descriptor\n" ++
  "- Source: Where to buy (store name or \"Similar at: [store]\")\n" ++
  "- One distinctive feature (material, color, special detail)\n" ++
  "- Price range indicator ($, $$, $$$) if applicable\n" ++
  "\n" ++
  "DECORATIVE ELEMENTS (SPARINGLY):\n" ++
  "- Small doodles: stars (☆), hearts (♡), arrows (→)\n" ++
  "- Washi tape strips on corners\n" ++
  "- Subtle geometric shapes (circles, triangles) as accents\n" ++
  "- Tiny sketches showing construction/detail\n" ++
  "- Color swatches as small squares/circles\n" ++
  "\n" ++
  "STEP 4: INFORMATION OVERLAY\n" ++
  "\n" ++
  "Add these information zones to your collage:\n" ++
  "\n" ++
  "COLOR PALETTE BAR:\n" ++
  "- 5 circular color swatches extracted from image\n" ++
  "- Hex codes below each\n" ++
  "- Small label: \"Color Story\" or \"Palette\"\n" ++
  "\n" ++
  "KEY DETAILS BOX (semi-transparent white):\n" ++
  "For FASHION:\n" ++
  "- Occasion: Work/Casual/Formal/Weekend\n" ++
  "- Season: Spring/Summer/Fall/Winter/Trans-seasonal  \n" ++
  "- Style: Minimalist/Romantic/Edgy/Classic/Trendy\n" ++
  "- Price Range: Budget-friendly/Mid-range/Investment\n" ++
  "\n" ++
  "For INTERIORS:\n" ++
  "- Style: Scandinavian/Industrial/Bohemian/Modern/Traditional\n" ++
  "- Room Type: Living/Bedroom/Kitchen/Office\n" ++
  "- Mood: Cozy/Minimal/Luxe/Eclectic/Fresh\n" ++
  "- Budget Level: DIY/Affordable/Mid-range/High-end\n" ++
  "\n" ++
  "For PRODUCTS:\n" ++
  "- Category: Tech/Beauty/Home/Fashion/Food\n" ++
  "- Target User: Professional/Student/Parent/Enthusiast\n" ++
  "- Quality Tier: Entry/Standard/Premium/Luxury\n" ++
  "- Key Feature: What makes it special\n" ++
  "\n" ++
  "SHOPPING LIST CORNER:\n" ++
  "- Bullet points of items with sources\n" ++
  "- Quick \"Get the Look\" or \"Shop This Style\" header\n" ++
  "- Website names or store locations\n" ++
  "\n" ++
  "STYLE NOTES (handwritten appearance):\n" ++
  "- 2-3 observations about the overall aesthetic\n" ++
  "- Tips for recreating or styling\n" ++
  "- Trend connections or timeless elements\n" ++
  "\n" ++
  "SPECIFIC RULES BY IMAGE TYPE:\n" ++
  "\n" ++
  "FOR FASHION/OUTFITS:\n" ++
  "- Show garments as flat lays or on invisible mannequin\n" ++
  "- Include texture close-ups for fabrics\n" ++
  "- Add sizing/fit notes (oversized, fitted, true to size)\n" ++
  "- Specify occasions suitable for outfit\n" ++
  "\n" ++
  "FOR INTERIORS:\n" ++
  "- Include material swatches\n" ++
  "- Show furniture from best angle\n" ++
  "- Add dimensions estimates (small/medium/large space)\n" ++
  "- Note lighting considerations\n" ++
  "\n" ++
  "FOR PRODUCTS:\n" ++
  "- Show multiple angles if relevant\n" ++
  "- Include packaging if visible\n" ++
  "- Add use-case scenarios\n" ++
  "- Compare to similar products\n" ++
  "\n" ++
  "FOR LANDSCAPE/SCENES:\n" ++
  "- Extract mood elements (lighting, atmosphere)\n" ++
  "- Identify location markers or style and if a specific real-world location is identifiable, provide its name, approximate GPS coordinates (latitude, longitude), and a clickable Google Maps link in the format https://www.google.com/maps?q=LAT,LONG.\n" ++
  "- Create color story from environment\n" ++
  "- Note time of day/season if relevant\n" ++
  "\n" ++
  "FOR FOOD:\n" ++
  "- Identify ingredients\n" ++
  "- Note plating techniques\n" ++
  "- Include serving suggestions\n" ++
  "- Specify cuisine style\n" ++
  "\n" ++
  "QUALITY REQUIREMENTS:\n" ++
  "\n" ++
  "MUST HAVE:\n" ++
  "✓ Clean, organized layout (not chaotic)\n" ++
  "✓ Every element labeled with source/brand\n" ++
  "✓ Consistent soft color scheme\n" ++
  "✓ Professional but approachable aesthetic\n" ++
  "✓ All items actually from the source image\n" ++
  "✓ Shopping/sourcing information\n" ++
  "✓ Color palette with hex codes\n" ++
  "✓ Playful but minimal decorative elements\n" ++
  "\n" ++
  "MUST AVOID:\n" ++
  "✗ Overwhelming effects or filters\n" ++
  "✗ Too many decorative elements\n" ++
  "✗ Invented items not in image\n" ++
  "✗ Messy, cluttered composition\n" ++
  "✗ Generic descriptions\n" ++
  "✗ Missing source information\n" ++
  "✗ Harsh colors or contrasts\n" ++
  "✗ Unprofessional appearance\n" ++
  "\n" ++
  "OUTPUT COMPOSITION CHECKLIST:\n" ++
  "□ Main subject clearly featured in center\n" ++
  "□ 6-10 individual elements arranged around it\n" ++
  "□ Each element has brand/source label\n" ++
  "□ Color palette included (5 colors)\n" ++
  "□ Handwritten-style annotations present\n" ++
  "□ Clean, magazine-quality presentation\n" ++
  "□ Soft, neutral background\n" ++
  "□ Shopping sources identified\n" ++
  "□ Style/mood descriptors included\n" ++
  "□ Overall look is Pinterest-worthy\n" ++
  "\n" ++
  "FINAL TONE: \n" ++
  "Create something that looks like it came from:\n" ++
  "- A high-end fashion magazine\x27s shopping pages\n" ++
  "- A professional interior designer\x27s mood board\n" ++
  "- A product stylist\x27s presentation deck\n" ++
  "- A creative director\x27s inspiration board\n" ++
  "\n" ++
  "The result should be IMMEDIATELY useful for shopping, styling, or recreating the look. Someone should be able to take your mood board and actually go buy the items or recreate the style. Make it clean enough for a client presentation but fun enough for social media sharing.\n" ++
  "\n" ++
  "Remember: This is about INFORMATION + AESTHETICS. Every element should be both beautiful AND useful. Think \"shoppable inspiration\" meets \"editorial design.\""

/-- The prompt assembled by handleGenerateMoodboard: a category header
ahead of the fixed template, the custom type substituted only for a
truthy OTHER custom text, and a trailing user-instructions section only
for a nonblank user prompt. -/
def buildFinalPrompt (imageType customImageType userPrompt : String) : String :=
  let finalImageType :=
    if imageType = "OTHER" ∧ ¬(customImageType = "") then customImageType
    else imageType
  let base :=
    "ATTENTION: The uploaded image is categorized as " ++ finalImageType ++
      ". Prioritize the specific rules for this category in your analysis.\n\n" ++
      DEFAULT_MOODBOARD_PROMPT
  if String.mk (trimWs userPrompt.data) = "" then base
  else base ++ "\n\nADDITIONAL USER INSTRUCTIONS: " ++ String.mk (trimWs userPrompt.data)

/-- The coordinate computation of handleImageClick: the click offset
inside the rendered image, scaled by the natural-to-displayed size
ratios; the result is where the marker is drawn on the off-screen
canvas. -/
def clickToOriginalCoord (clientX clientY rectLeft rectTop dispW dispH natW natH : ℚ) :
    ℚ × ℚ :=
  let x := clientX - rectLeft
  let y := clientY - rectTop
  let scaleX := natW / dispW
  let scaleY := natH / dispH
  (x * scaleX, y * scaleY)

/-! ### Predicates and fixtures used by the statements -/

/-- Is the first character present and not whitespace? -/
def headNonWs (l : List Char) : Bool :=
  match l with
  | [] => false
  | c :: _ => !wsChar c

/-- Is the last character present and not whitespace? -/
def lastNonWs : List Char → Bool
  | [] => false
  | [c] => !wsChar c
  | _ :: c :: cs => lastNonWs (c :: cs)

/-- No three consecutive backticks anywhere in the text. -/
def NoFence : List Char → Bool
  | [] => true
  | c :: cs => !startsWithFence (c :: cs) && NoFence cs

/-- The characters of a json-tagged opening fence line. -/
def jsonHeader : List Char := [tick, tick, tick, 'j', 's', 'o', 'n', '\n']

/-- The characters of a plain opening fence line. -/
def plainHeader : List Char := [tick, tick, tick, '\n']

/-- The characters of a closing fence on its own line. -/
def fenceTail : List Char := ['\n', tick, tick, tick]

/-- Wrap a serialized payload in a json-tagged fenced code block. -/
def wrapFenceJson (s : String) : String := "```json\n" ++ s ++ "\n```"

/-- Wrap a serialized payload in a plain fenced code block. -/
def wrapFencePlain (s : String) : String := "```\n" ++ s ++ "\n```"

/-- A details object whose name value contains backtick fences; the
extraction regex latches onto them. -/
def cexDetails : Json := Json.obj [("name", Json.str ("``` 5 ```"))]

/-- An ordinary details object (no backticks anywhere). -/
def plainDetails : Json :=
  Json.obj [("elementType", Json.str ("product")), ("name", Json.str ("Desk Lamp"))]

/-- A state holding a primary image and the results of a previous
composite run, about to start a new mood-board generation. -/
def exCompositeState : AppState where
  primaryImageFile := some ⟨0, "image/jpeg"⟩
  primaryImagePreview := some (objectURL ⟨0, "image/jpeg"⟩)
  secondaryImageFile := none
  secondaryImagePreview := none
  imageType := "PRODUCT"
  customImageType := ""
  userPrompt := ""
  generatedResult := none
  isLoading := false
  error := none
  elementDetailsResult := none
  isElementLoading := false
  elementError := none
  clickPosition := none
  isEnhancing := false
  enhancementError := none
  similarItems := none
  isFindingSimilar := false
  findSimilarError := none
  compositeResultUrl := some "data:image/png;base64,QUJD"
  isGeneratingComposite := false
  compositeError := some "old composite error"

/-- A fully populated element-details record tagged as an architectural
feature. -/
def sampleArchDetails : ElementDetails where
  elementType := "architectural_feature"
  name := "Colosseum"
  category := "landmark"
  subcategory := "amphitheatre"
  style := ⟨"Roman", [], "ancient"⟩
  materials := ⟨"stone", [], "rough"⟩
  colors := ⟨"#AAAAAA", [], "Monochrome"⟩
  dimensions := ⟨true, "Large", "wide"⟩
  description := ⟨"An ancient arena.", [], "venue", "ruin"⟩
  market := ⟨"priceless", "Rare", [], []⟩
  culturalContext := ⟨"Rome", "very high", "tourism"⟩
  technicalDetails := ⟨"masonry", [], "conservation"⟩
  recommendations := ⟨[], "visit in person", []⟩
  metadata := ⟨(95 : ℚ) / 100, "2024-01-01T12:00:00Z", "Center", "High"⟩

/-- A grounded reply carrying exactly one chunk with the given web
record. -/
def singleChunkResponse (w : Option WebInfo) : GroundedResponse :=
  ⟨[⟨some ⟨some [⟨w⟩]⟩⟩]⟩

/-! ### C2: primary upload resets everything downstream -/

/-- C2.  For every file passed to the primary-upload handler, afterwards
the primary preview references exactly that file's object URL, the
secondary image and preview are cleared, and every result and error slot
is cleared. -/
theorem handlePrimaryImageUpload_resets_all (s : AppState) (f : ImageFile) :
    (handlePrimaryImageUpload f s).primaryImageFile = some f ∧
    (handlePrimaryImageUpload f s).primaryImagePreview = some (objectURL f) ∧
    (handlePrimaryImageUpload f s).secondaryImageFile = none ∧
    (handlePrimaryImageUpload f s).secondaryImagePreview = none ∧
    (handlePrimaryImageUpload f s).generatedResult = none ∧
    (handlePrimaryImageUpload f s).elementDetailsResult = none ∧
    (handlePrimaryImageUpload f s).clickPosition = none ∧
    (handlePrimaryImageUpload f s).similarItems = none ∧
    (handlePrimaryImageUpload f s).compositeResultUrl = none ∧
    (handlePrimaryImageUpload f s).error = none ∧
    (handlePrimaryImageUpload f s).elementError = none ∧
    (handlePrimaryImageUpload f s).enhancementError = none ∧
    (handlePrimaryImageUpload f s).findSimilarError = none ∧
    (handlePrimaryImageUpload f s).compositeError = none := by
  and_intros <;> rfl

/-! ### C1: starting a mood-board generation -/

/-- C1 (amended).  With a primary image present, the synchronous prefix
of handleGenerateMoodboard raises the loading flag and clears the
generated result, element details, click position, similar items and the
generation, element, enhancement and find-similar errors before the
request is issued, but leaves the composite result and the composite
error untouched. -/
theorem handleGenerateMoodboard_resets_except_composite
    (s : AppState) (f : ImageFile) (h : s.primaryImageFile = some f) :
    (handleGenerateMoodboardStart s).isLoading = true ∧
    (handleGenerateMoodboardStart s).generatedResult = none ∧
    (handleGenerateMoodboardStart s).elementDetailsResult = none ∧
    (handleGenerateMoodboardStart s).clickPosition = none ∧
    (handleGenerateMoodboardStart s).error = none ∧
    (handleGenerateMoodboardStart s).elementError = none ∧
    (handleGenerateMoodboardStart s).enhancementError = none ∧
    (handleGenerateMoodboardStart s).similarItems = none ∧
    (handleGenerateMoodboardStart s).findSimilarError = none ∧
    (handleGenerateMoodboardStart s).compositeResultUrl = s.compositeResultUrl ∧
    (handleGenerateMoodboardStart s).compositeError = s.compositeError := by
  unfold handleGenerateMoodboardStart
  rw [h]
  and_intros <;> rfl

/-- C1 witness: the amended statement evaluated on the fixture state. -/
theorem handleGenerateMoodboard_resets_except_composite_witness :
    exCompositeState.primaryImageFile = some ⟨0, "image/jpeg"⟩ ∧
    ((handleGenerateMoodboardStart exCompositeState).isLoading = true ∧
     (handleGenerateMoodboardStart exCompositeState).generatedResult = none ∧
     (handleGenerateMoodboardStart exCompositeState).elementDetailsResult = none ∧
     (handleGenerateMoodboardStart exCompositeState).clickPosition = none ∧
     (handleGenerateMoodboardStart exCompositeState).error = none ∧
     (handleGenerateMoodboardStart exCompositeState).elementError = none ∧
     (handleGenerateMoodboardStart exCompositeState).enhancementError = none ∧
     (handleGenerateMoodboardStart exCompositeState).similarItems = none ∧
     (handleGenerateMoodboardStart exCompositeState).findSimilarError = none ∧
     (handleGenerateMoodboardStart exCompositeState).compositeResultUrl =
       exCompositeState.compositeResultUrl ∧
     (handleGenerateMoodboardStart exCompositeState).compositeError =
       exCompositeState.compositeError) :=
  ⟨rfl, handleGenerateMoodboard_resets_except_composite exCompositeState ⟨0, "image/jpeg"⟩ rfl⟩

/-- C1 counterexample: on a state carrying a previous composite result
and composite error, the prefix of handleGenerateMoodboard leaves both
populated, so the claim that every downstream slot (the composite panel
included) is reset is false. -/
theorem handleGenerateMoodboard_composite_not_reset_cex :
    exCompositeState.primaryImageFile ≠ none ∧
    (handleGenerateMoodboardStart exCompositeState).compositeResultUrl =
      some "data:image/png;base64,QUJD" ∧
    (handleGenerateMoodboardStart exCompositeState).compositeError =
      some "old composite error" ∧
    (handleGenerateMoodboardStart exCompositeState).compositeResultUrl ≠ none ∧
    (handleGenerateMoodboardStart exCompositeState).compositeError ≠ none := by
  refine ⟨?_, rfl, rfl, ?_, ?_⟩ <;> simp [exCompositeState, handleGenerateMoodboardStart]

/-! ### C5: click-to-pixel coordinate mapping -/

/-- C5.  For a click at client position (cx, cy) over an image whose
bounding rectangle starts at (l, t) — display coordinate
(x, y) = (cx - l, cy - t) — rendered at size (w, h) with natural size
(W, H), both nonzero, the marker is drawn at exactly
(x * W / w, y * H / h) on the off-screen copy. -/
theorem handleImageClick_marker_coordinates
    (cx cy l t w h W H : ℚ) (hw : w ≠ 0) (hh : h ≠ 0) :
    clickToOriginalCoord cx cy l t w h W H =
      ((cx - l) * W / w, (cy - t) * H / h) := by
  unfold clickToOriginalCoord
  rw [Prod.mk.injEq]
  exact ⟨(mul_div_assoc _ _ _).symm, (mul_div_assoc _ _ _).symm⟩

/-- C5 witness: the mapping evaluated at a concrete click. -/
theorem handleImageClick_marker_coordinates_witness :
    (4 : ℚ) ≠ 0 ∧ (8 : ℚ) ≠ 0 ∧
    clickToOriginalCoord 10 20 2 4 4 8 8 16 =
      ((10 - 2) * 8 / 4, (20 - 4) * 16 / 8) :=
  ⟨by norm_num, by norm_num,
   handleImageClick_marker_coordinates 10 20 2 4 4 8 8 16 (by norm_num) (by norm_num)⟩

/-! ### C8: the FOOD prompt with blank user instructions -/

/-- C8.  For an upload categorized as FOOD and blank additional
instructions, the assembled prompt is exactly a header carrying the
literal category tag FOOD followed by the fixed template, with no
ADDITIONAL USER INSTRUCTIONS section appended. -/
theorem moodboard_prompt_food_no_user_instructions
    (c u : String) (h : String.mk (trimWs u.data) = "") :
    buildFinalPrompt ("FOOD") c u =
      "ATTENTION: The uploaded image is categorized as " ++ "FOOD" ++
        ". Prioritize the specific rules for this category in your analysis.\n\n" ++
        DEFAULT_MOODBOARD_PROMPT := by
  unfold buildFinalPrompt
  rw [if_pos h, if_neg (by simp)]

/-- C8 witness: the prompt assembled for FOOD with whitespace-only
instructions. -/
theorem moodboard_prompt_food_no_user_instructions_witness :
    String.mk (trimWs ("  ").data) = "" ∧
    buildFinalPrompt ("FOOD") ("") ("  ") =
      "ATTENTION: The uploaded image is categorized as " ++ "FOOD" ++
        ". Prioritize the specific rules for this category in your analysis.\n\n" ++
        DEFAULT_MOODBOARD_PROMPT :=
  ⟨rfl, moodboard_prompt_food_no_user_instructions ("") ("  ") rfl⟩

/-! ### C6: query selection and empty grounding results -/

/-- C6.  findSimilarItems picks its query by the element-type tag — a
commerce query for product and fashion_item, a Google-Maps location
query for architectural_feature, a recipe query for food_item, an
art-platform query for design_element, a generic query otherwise — and a
reply with no grounding chunks yields the empty list, not an error. -/
theorem findSimilarItems_query_selection_and_empty :
    (∀ d : ElementDetails, d.elementType = "product" ∨ d.elementType = "fashion_item" →
       buildSimilarQuery d =
         "Find the product named \"" ++ d.name ++ "\" on e-commerce websites like Amazon, Myntra, H&M, or other relevant online stores. Prioritize direct shopping links.") ∧
    (∀ d : ElementDetails, d.elementType = "architectural_feature" →
       buildSimilarQuery d =
         "Find the location of the building or landmark known as \"" ++ d.name ++ "\" on Google Maps. Provide a direct link to the location.") ∧
    (∀ d : ElementDetails, d.elementType = "food_item" →
       buildSimilarQuery d =
         "Find recipes for \"" ++ d.name ++ "\" from Zomato, food wikis, or popular recipe blogs.") ∧
    (∀ d : ElementDetails, d.elementType = "design_element" →
       buildSimilarQuery d =
         "Find similar artwork or designs to \"" ++ d.name ++ "\" on Pinterest, Behance, or Dribbble.") ∧
    (∀ d : ElementDetails,
       ¬(d.elementType = "product") → ¬(d.elementType = "fashion_item") →
       ¬(d.elementType = "architectural_feature") → ¬(d.elementType = "food_item") →
       ¬(d.elementType = "design_element") →
       buildSimilarQuery d =
         "Find more information and relevant links for \"" ++ d.name ++ "\".") ∧
    (∀ (d : ElementDetails) (resp : GroundedResponse),
       chunksOf resp = none ∨ chunksOf resp = some [] →
       findSimilarItems d resp = []) := by
  refine ⟨?_, ?_, ?_, ?_, ?_, ?_⟩
  · intro d h
    rcases h with h | h <;> simp [buildSimilarQuery, h]
  · intro d h; simp [buildSimilarQuery, h]
  · intro d h; simp [buildSimilarQuery, h]
  · intro d h; simp [buildSimilarQuery, h]
  · intro d h1 h2 h3 h4 h5; simp [buildSimilarQuery, h1, h2, h3, h4, h5]
  · intro d resp h
    rcases h with h | h <;> simp [findSimilarItems, h]

/-- C6 witness: the maps query and the empty-chunks result on a concrete
architectural-feature input. -/
theorem findSimilarItems_query_selection_and_empty_witness :
    buildSimilarQuery sampleArchDetails =
      "Find the location of the building or landmark known as \"" ++ "Colosseum" ++ "\" on Google Maps. Provide a direct link to the location." ∧
    findSimilarItems sampleArchDetails ⟨[]⟩ = [] :=
  ⟨findSimilarItems_query_selection_and_empty.2.1 sampleArchDetails rfl,
   findSimilarItems_query_selection_and_empty.2.2.2.2.2 sampleArchDetails ⟨[]⟩ (Or.inl rfl)⟩

/-! ### C10: every returned item has a uri -/

/-- C10.  Every SimilarItem returned by findSimilarItems has a nonempty
uri (chunks with a missing or empty web uri are dropped by the filter),
and a chunk with a usable uri but a missing title is kept with the title
Untitled. -/
theorem findSimilarItems_items_have_uri :
    (∀ (d : ElementDetails) (resp : GroundedResponse) (it : SimilarItem),
       it ∈ findSimilarItems d resp → ¬(it.uri = "")) ∧
    (∀ (d : ElementDetails) (u : String), ¬(u = "") →
       findSimilarItems d (singleChunkResponse (some ⟨some u, none⟩)) =
         [⟨"Untitled", u⟩]) := by
  constructor
  · intro d resp it h
    simp only [findSimilarItems] at h
    split at h
    · split at h
      · have hm := List.mem_filter.mp h
        simpa using hm.2
      · simp at h
    · simp at h
  · intro d u hu
    simp [findSimilarItems, singleChunkResponse, chunksOf, chunkToItem, hu]

/-- C10 witness: a single chunk with a uri and no title becomes the one
Untitled item, whose uri is nonempty. -/
theorem findSimilarItems_items_have_uri_witness :
    findSimilarItems sampleArchDetails
        (singleChunkResponse (some ⟨some "https://maps.example/colosseum", none⟩)) =
      [⟨"Untitled", "https://maps.example/colosseum"⟩] ∧
    ¬(("https://maps.example/colosseum" : String) = "") :=
  ⟨findSimilarItems_items_have_uri.2 sampleArchDetails "https://maps.example/colosseum"
     (by decide),
   by decide⟩

/-! ### The demultiplexing loops, characterized -/

/-- The image slot of the shared loop is empty iff it started empty and
no image part occurs. -/
theorem foldl_stepImageText_fst (parts : List ReplyPart) :
    ∀ acc : Option String × Option String,
      (parts.foldl stepImageText acc).1 = none ↔
        acc.1 = none ∧ hasImagePart parts = false := by
  induction parts with
  | nil => intro acc; simp [hasImagePart]
  | cons p rest ih =>
    intro acc
    cases p with
    | textPart str =>
      by_cases hs : str = ""
      · simp only [List.foldl_cons, stepImageText, if_pos hs]
        rw [ih]
        simp [hasImagePart]
      · simp only [List.foldl_cons, stepImageText, if_neg hs]
        rw [ih]
        simp [hasImagePart]
    | imagePart dd mm =>
      simp only [List.foldl_cons, stepImageText]
      rw [ih]
      simp [hasImagePart]

/-- The text slot of the shared loop is empty iff it started empty and
every text part present carries the empty string. -/
theorem foldl_stepImageText_snd_none (parts : List ReplyPart) :
    ∀ acc : Option String × Option String,
      (parts.foldl stepImageText acc).2 = none ↔
        acc.2 = none ∧ ∀ t, ReplyPart.textPart t ∈ parts → t = "" := by
  induction parts with
  | nil => intro acc; simp
  | cons p rest ih =>
    intro acc
    cases p with
    | textPart str =>
      by_cases hs : str = ""
      · simp only [List.foldl_cons, stepImageText, if_pos hs]
        rw [ih]
        subst hs
        simp only [List.mem_cons]
        constructor
        · rintro ⟨h1, h2⟩
          refine ⟨h1, fun t ht => ?_⟩
          rcases ht with he | hm
          · cases he; rfl
          · exact h2 t hm
        · rintro ⟨h1, h2⟩
          exact ⟨h1, fun t ht => h2 t (Or.inr ht)⟩
      · simp only [List.foldl_cons, stepImageText, if_neg hs]
        rw [ih]
        constructor
        · rintro ⟨h1, -⟩
          exact absurd h1 (by simp)
        · rintro ⟨-, h2⟩
          exact absurd (h2 str (by simp)) hs
    | imagePart dd mm =>
      simp only [List.foldl_cons, stepImageText]
      rw [ih]
      simp

/-- The text slot of the shared loop holds exactly the last nonempty
text part of the reply, falling back to its initial value when there is
none. -/
theorem foldl_stepImageText_snd_last (parts : List ReplyPart) :
    ∀ acc : Option String × Option String,
      (parts.foldl stepImageText acc).2 =
        match (nonemptyTexts parts).getLast? with
        | some t => some t
        | none => acc.2 := by
  induction parts with
  | nil => intro acc; simp [nonemptyTexts]
  | cons p rest ih =>
    intro acc
    cases p with
    | textPart str =>
      by_cases hs : str = ""
      · simp only [List.foldl_cons, stepImageText, if_pos hs]
        rw [ih]
        have hN : nonemptyTexts (ReplyPart.textPart str :: rest) = nonemptyTexts rest := by
          simp [nonemptyTexts, hs]
        rw [hN]
      · simp only [List.foldl_cons, stepImageText, if_neg hs]
        rw [ih]
        have hN : nonemptyTexts (ReplyPart.textPart str :: rest) =
            str :: nonemptyTexts rest := by
          simp [nonemptyTexts, hs]
        rw [hN]
        cases hL : nonemptyTexts rest with
        | nil => simp
        | cons b L =>
          rw [List.getLast?_cons_cons]
          have hne : (b :: L).getLast? ≠ none := by
            intro h0
            exact absurd (List.getLast?_eq_none_iff.mp h0) (by simp)
          cases hg : (b :: L).getLast? with
          | none => exact absurd hg hne
          | some t => rfl
    | imagePart dd mm =>
      simp only [List.foldl_cons, stepImageText]
      rw [ih]
      have hN : nonemptyTexts (ReplyPart.imagePart dd mm :: rest) = nonemptyTexts rest := by
        simp [nonemptyTexts]
      rw [hN]

/-- The image slot of the details loop is empty iff it started empty and
no image part occurs. -/
theorem foldl_stepImageDetails_fst (parts : List ReplyPart) :
    ∀ acc : Option String × Option Json,
      (parts.foldl stepImageDetails acc).1 = none ↔
        acc.1 = none ∧ hasImagePart parts = false := by
  induction parts with
  | nil => intro acc; simp [hasImagePart]
  | cons p rest ih =>
    intro acc
    cases p with
    | textPart str =>
      by_cases hs : str = ""
      · simp only [List.foldl_cons, stepImageDetails, if_pos hs]
        rw [ih]
        simp [hasImagePart]
      · simp only [List.foldl_cons, stepImageDetails, if_neg hs]
        rw [ih]
        simp [hasImagePart]
    | imagePart dd mm =>
      simp only [List.foldl_cons, stepImageDetails]
      rw [ih]
      simp [hasImagePart]

/-- When every text part fails the fenced-JSON parse, the details slot
of the details loop stays empty. -/
theorem foldl_stepImageDetails_snd_none (parts : List ReplyPart) :
    ∀ acc : Option String × Option Json, acc.2 = none →
      (∀ t, ReplyPart.textPart t ∈ parts → parseJsonFromMarkdown t = none) →
      (parts.foldl stepImageDetails acc).2 = none := by
  induction parts with
  | nil => intro acc h _; simpa using h
  | cons p rest ih =>
    intro acc hacc hall
    cases p with
    | textPart str =>
      by_cases hs : str = ""
      · simp only [List.foldl_cons, stepImageDetails, if_pos hs]
        exact ih acc hacc (fun t ht => hall t (List.mem_cons_of_mem _ ht))
      · simp only [List.foldl_cons, stepImageDetails, if_neg hs]
        exact ih _ (hall str (by simp)) (fun t ht => hall t (List.mem_cons_of_mem _ ht))
    | imagePart dd mm =>
      simp only [List.foldl_cons, stepImageDetails]
      exact ih _ hacc (fun t ht => hall t (List.mem_cons_of_mem _ ht))

/-! ### C9: generateMoodboard throws iff the reply has no image part -/

/-- C9.  Past the block-reason and candidate checks, generateMoodboard
fails exactly when the first candidate's parts contain no image part;
with an image part and no text part at all it succeeds with a null text
and an empty color list. -/
theorem generateMoodboard_throws_iff_no_image
    (resp : GenerateContentResponse) (c : Candidate) (rest : List Candidate)
    (hb : resp.blockReason = none) (hc : resp.candidates = c :: rest) :
    ((∃ m, generateMoodboard resp = .error m) ↔ hasImagePart c.parts = false) ∧
    (hasImagePart c.parts = true → (∀ t, ReplyPart.textPart t ∉ c.parts) →
       ∃ u, generateMoodboard resp = .ok ⟨some u, none, []⟩) := by
  have hcall : callGeminiModel resp = .ok c.parts := by
    unfold callGeminiModel; rw [hb, hc]
  rcases hP : collectImageAndText c.parts with ⟨iu, tx⟩
  have hfold : c.parts.foldl stepImageText (none, none) = (iu, tx) := hP
  have hfst : iu = none ↔ hasImagePart c.parts = false := by
    have h0 := foldl_stepImageText_fst c.parts (none, none)
    rw [hfold] at h0
    simpa using h0
  unfold generateMoodboard generateMoodboardCore
  rw [hcall]
  simp only []
  rw [hP]
  cases iu with
  | none =>
    have himg : hasImagePart c.parts = false := hfst.mp rfl
    constructor
    · exact ⟨fun _ => himg, fun _ => ⟨_, rfl⟩⟩
    · intro htrue _
      rw [htrue] at himg
      exact absurd himg (by simp)
  | some u =>
    have himg : hasImagePart c.parts = true := by
      cases hw : hasImagePart c.parts with
      | false => exact absurd (hfst.mpr hw) (by simp)
      | true => rfl
    constructor
    · constructor
      · rintro ⟨m, hm⟩
        exact absurd hm (by simp)
      · intro hfalse
        rw [himg] at hfalse
        exact absurd hfalse (by simp)
    · intro _ hnt
      have hsnd := (foldl_stepImageText_snd_none c.parts (none, none)).mpr
        ⟨rfl, fun t ht => absurd ht (hnt t)⟩
      rw [hfold] at hsnd
      subst hsnd
      exact ⟨u, rfl⟩

/-- C9 witness: a reply with only an image part succeeds with null text
and no colors, and the failure characterization holds on it. -/
theorem generateMoodboard_throws_iff_no_image_witness :
    ((∃ m, generateMoodboard ⟨none, [⟨[ReplyPart.imagePart ("QUJD") ("image/png")]⟩]⟩ = .error m) ↔
       hasImagePart [ReplyPart.imagePart ("QUJD") ("image/png")] = false) ∧
    (hasImagePart [ReplyPart.imagePart ("QUJD") ("image/png")] = true →
       (∀ t, ReplyPart.textPart t ∉ [ReplyPart.imagePart ("QUJD") ("image/png")]) →
       ∃ u, generateMoodboard ⟨none, [⟨[ReplyPart.imagePart ("QUJD") ("image/png")]⟩]⟩ =
         .ok ⟨some u, none, []⟩) :=
  generateMoodboard_throws_iff_no_image
    ⟨none, [⟨[ReplyPart.imagePart ("QUJD") ("image/png")]⟩]⟩
    ⟨[ReplyPart.imagePart ("QUJD") ("image/png")]⟩ [] rfl rfl

/-! ### C3: getElementDetails failure messages -/

/-- C3.  Past the shared checks, getElementDetails fails with one
message when the reply has no image part, and with a different message
when it has an image part but no text part parses as JSON; the two
messages differ. -/
theorem getElementDetails_distinct_failure_messages
    (resp : GenerateContentResponse) (c : Candidate) (rest : List Candidate)
    (hb : resp.blockReason = none) (hc : resp.candidates = c :: rest) :
    (hasImagePart c.parts = false →
       getElementDetails resp =
         .error ("Failed to get element details: " ++
           "The AI failed to generate an image for the selected element.")) ∧
    ((hasImagePart c.parts = true ∧
        ∀ t, ReplyPart.textPart t ∈ c.parts → parseJsonFromMarkdown t = none) →
       getElementDetails resp =
         .error ("Failed to get element details: " ++
           "The AI failed to provide valid details for the selected element. The response was not valid JSON.")) ∧
    ¬(("Failed to get element details: " ++
        "The AI failed to generate an image for the selected element." : String) =
      "Failed to get element details: " ++
        "The AI failed to provide valid details for the selected element. The response was not valid JSON.") := by
  have hcall : callGeminiModel resp = .ok c.parts := by
    unfold callGeminiModel; rw [hb, hc]
  rcases hP : collectImageAndDetails c.parts with ⟨iu, det⟩
  have hfold : c.parts.foldl stepImageDetails (none, none) = (iu, det) := hP
  have hfst : iu = none ↔ hasImagePart c.parts = false := by
    have h0 := foldl_stepImageDetails_fst c.parts (none, none)
    rw [hfold] at h0
    simpa using h0
  unfold getElementDetails getElementDetailsCore
  rw [hcall]
  simp only []
  rw [hP]
  refine ⟨?_, ?_, by decide⟩
  · intro himg
    have h1 : iu = none := hfst.mpr himg
    subst h1
    rfl
  · rintro ⟨himg, hall⟩
    cases hiu : iu with
    | none =>
      have h2 := hfst.mp hiu
      rw [himg] at h2
      exact absurd h2 (by simp)
    | some u =>
      have hdet : det = none := by
        have h1 := foldl_stepImageDetails_snd_none c.parts (none, none) rfl hall
        rw [hfold] at h1
        exact h1
      subst hdet
      subst hiu
      rfl

/-- C3 witness: the no-image message on a text-only reply, the bad-JSON
message on an image-plus-unparseable-text reply, and their inequality. -/
theorem getElementDetails_distinct_failure_messages_witness :
    getElementDetails ⟨none, [⟨[ReplyPart.textPart ("just text")]⟩]⟩ =
      .error ("Failed to get element details: " ++
        "The AI failed to generate an image for the selected element.") ∧
    getElementDetails
        ⟨none, [⟨[ReplyPart.imagePart ("QUJD") ("image/png"),
                  ReplyPart.textPart ("not json")]⟩]⟩ =
      .error ("Failed to get element details: " ++
        "The AI failed to provide valid details for the selected element. The response was not valid JSON.") :=
  ⟨(getElementDetails_distinct_failure_messages
      ⟨none, [⟨[ReplyPart.textPart ("just text")]⟩]⟩
      ⟨[ReplyPart.textPart ("just text")]⟩ [] rfl rfl).1 rfl,
   (getElementDetails_distinct_failure_messages
      ⟨none, [⟨[ReplyPart.imagePart ("QUJD") ("image/png"),
                ReplyPart.textPart ("not json")]⟩]⟩
      ⟨[ReplyPart.imagePart ("QUJD") ("image/png"),
        ReplyPart.textPart ("not json")]⟩ [] rfl rfl).2.1
     ⟨rfl, by
       intro t ht
       simp only [List.mem_cons, List.not_mem_nil, or_false] at ht
       rcases ht with ht | ht
       · exact absurd ht (by simp)
       · cases ht
         rfl⟩⟩

/-! ### C7: generateCompositeImage failure shapes -/

/-- The excerpt-bearing message never coincides with the
empty-or-filtered message: their last characters differ. -/
theorem compositeTextMsg_ne_empty (t : String) :
    ¬(compositeTextMsg t = compositeEmptyMsg) := by
  intro h
  have hL : (compositeTextMsg t).data.reverse.head? = some '"' := by
    unfold compositeTextMsg
    rw [String.data_append, String.data_append, String.data_append,
      List.reverse_append, List.reverse_append]
    rfl
  rw [h] at hL
  exact absurd hL (by decide)

/-- C7 (amended).  Past the shared checks, on a reply with no image
part: with a nonempty text part present, the thrown message embeds an
excerpt of exactly the last nonempty text of the reply, truncated to at
most 150 characters; with no nonempty text at all the empty-or-filtered
message is thrown; and the two messages never coincide. -/
theorem generateCompositeImage_failure_shapes
    (resp : GenerateContentResponse) (c : Candidate) (rest : List Candidate)
    (hb : resp.blockReason = none) (hc : resp.candidates = c :: rest)
    (hnoimg : hasImagePart c.parts = false) :
    ((∃ s, ReplyPart.textPart s ∈ c.parts ∧ ¬(s = "")) →
       ∃ t, (nonemptyTexts c.parts).getLast? = some t ∧
         generateCompositeImage resp = .error (compositeTextMsg t) ∧
         (substringTo t 150).length ≤ 150) ∧
    ((∀ t, ReplyPart.textPart t ∈ c.parts → t = "") →
       generateCompositeImage resp = .error compositeEmptyMsg) ∧
    (∀ t, ¬(compositeTextMsg t = compositeEmptyMsg)) := by
  have hcall : callGeminiModel resp = .ok c.parts := by
    unfold callGeminiModel; rw [hb, hc]
  rcases hP : collectImageAndText c.parts with ⟨iu, tx⟩
  have hfold : c.parts.foldl stepImageText (none, none) = (iu, tx) := hP
  have hiu : iu = none := by
    have h0 := foldl_stepImageText_fst c.parts (none, none)
    rw [hfold] at h0
    exact h0.mpr ⟨rfl, hnoimg⟩
  subst hiu
  have hsnd := foldl_stepImageText_snd_none c.parts (none, none)
  rw [hfold] at hsnd
  have hlast := foldl_stepImageText_snd_last c.parts (none, none)
  rw [hfold] at hlast
  unfold generateCompositeImage generateCompositeImageCore
  rw [hcall]
  simp only []
  rw [hP]
  refine ⟨?_, ?_, compositeTextMsg_ne_empty⟩
  · rintro ⟨s0, hmem, hne⟩
    have hmemN : s0 ∈ nonemptyTexts c.parts := by
      unfold nonemptyTexts
      exact List.mem_filterMap.mpr ⟨ReplyPart.textPart s0, hmem, by simp [hne]⟩
    have hnnil : nonemptyTexts c.parts ≠ [] := List.ne_nil_of_mem hmemN
    cases hg : (nonemptyTexts c.parts).getLast? with
    | none => exact absurd (List.getLast?_eq_none_iff.mp hg) hnnil
    | some t =>
      have htx : tx = some t := by
        rw [hg] at hlast
        exact hlast
      subst htx
      refine ⟨t, rfl, rfl, ?_⟩
      show (t.data.take 150).length ≤ 150
      exact List.length_take_le _ _
  · intro hall
    have htx : tx = none := hsnd.mpr ⟨rfl, hall⟩
    subst htx
    rfl

/-- C7 witness: on a text-only reply the excerpt message quotes the
last (here only) nonempty text part. -/
theorem generateCompositeImage_failure_shapes_witness :
    ∃ t, (nonemptyTexts [ReplyPart.textPart ("hello")]).getLast? = some t ∧
      generateCompositeImage ⟨none, [⟨[ReplyPart.textPart ("hello")]⟩]⟩ =
        .error (compositeTextMsg t) ∧ (substringTo t 150).length ≤ 150 :=
  (generateCompositeImage_failure_shapes
      ⟨none, [⟨[ReplyPart.textPart ("hello")]⟩]⟩
      ⟨[ReplyPart.textPart ("hello")]⟩ [] rfl rfl rfl).1
    ⟨"hello", by simp, by decide⟩

/-- C7 counterexample: a reply whose only part is an empty text part
does contain a text part and no image part, yet the thrown message is
the empty-or-filtered one, not the excerpt-bearing one the claim
requires for text-containing replies. -/
theorem generateCompositeImage_empty_text_cex :
    (ReplyPart.textPart ("") ∈ [ReplyPart.textPart ("")]) ∧
    hasImagePart [ReplyPart.textPart ("")] = false ∧
    generateCompositeImage ⟨none, [⟨[ReplyPart.textPart ("")]⟩]⟩ =
      .error compositeEmptyMsg ∧
    ¬(compositeEmptyMsg = compositeTextMsg ("")) := by
  refine ⟨by simp, rfl, rfl, ?_⟩
  intro h
  exact compositeTextMsg_ne_empty ("") h.symm

/-! ### C4 machinery: the extraction regex on fence-free payloads -/

/-- The cons equation of NoFence, for single-step rewriting. -/
theorem NoFence_cons (c : Char) (cs : List Char) :
    NoFence (c :: cs) = (!startsWithFence (c :: cs) && NoFence cs) := rfl

/-- The cons equation of findMinG, for single-step rewriting. -/
theorem findMinG_cons (acc : List Char) (c : Char) (cs : List Char) :
    findMinG acc (c :: cs) =
      if isWsThenFence cs then some (acc ++ [c]) else findMinG (acc ++ [c]) cs := rfl

/-- A text with no fence never matches the pattern. -/
theorem noFence_findFenceMatch : ∀ l : List Char, NoFence l = true →
    findFenceMatch l = none := by
  intro l
  induction l with
  | nil => intro _; rfl
  | cons c cs ih =>
    intro h
    simp only [NoFence, Bool.and_eq_true, Bool.not_eq_true'] at h
    simp only [findFenceMatch, h.1]
    exact ih h.2

/-- lastNonWs skips past a front element when two are present. -/
theorem lastNonWs_cons_cons (a b : Char) (l : List Char) :
    lastNonWs (a :: b :: l) = lastNonWs (b :: l) := rfl

/-- Appending a non-whitespace character makes lastNonWs true. -/
theorem lastNonWs_append_single : ∀ (l : List Char) (c : Char), !wsChar c = true →
    lastNonWs (l ++ [c]) = true := by
  intro l
  induction l with
  | nil => intro c h; simpa [lastNonWs] using h
  | cons a l₂ ih =>
    intro c h
    cases l₂ with
    | nil => simpa [lastNonWs] using h
    | cons b l₃ =>
      rw [show ((a :: b :: l₃) ++ [c]) = a :: b :: (l₃ ++ [c]) from rfl,
        lastNonWs_cons_cons]
      exact ih c h

/-- A nonempty all-non-whitespace list has a non-whitespace last
character. -/
theorem lastNonWs_of_all : ∀ l : List Char, l ≠ [] →
    l.all (fun c => !wsChar c) = true → lastNonWs l = true := by
  intro l
  induction l with
  | nil => intro h _; exact absurd rfl h
  | cons a l₂ ih =>
    intro _ hall
    simp only [List.all_cons, Bool.and_eq_true] at hall
    cases l₂ with
    | nil => simpa [lastNonWs] using hall.1
    | cons b l₃ =>
      rw [lastNonWs_cons_cons]
      exact ih (by simp) hall.2

/-- Against a fence-free text ending in a non-whitespace character, the
trailing whitespace-then-fence context never matches while payload
characters remain. -/
theorem isWsThenFence_false : ∀ v : List Char, NoFence v = true →
    lastNonWs v = true → isWsThenFence (v ++ fenceTail) = false := by
  intro v
  induction v with
  | nil => intro _ h; exact absurd h (by simp [lastNonWs])
  | cons a v₂ ih =>
    intro hnf hl
    simp only [NoFence, Bool.and_eq_true, Bool.not_eq_true'] at hnf
    cases v₂ with
    | nil =>
      have ha : wsChar a = false := by simpa [lastNonWs] using hl
      simp [isWsThenFence, List.dropWhile_cons, ha, startsWithFence, fenceTail,
        show ('\n' == tick) = false from by decide]
    | cons b v₃ =>
      by_cases hw : wsChar a = true
      · have hl₂ : lastNonWs (b :: v₃) = true := by
          rw [← lastNonWs_cons_cons a]; exact hl
        have hres := ih hnf.2 hl₂
        unfold isWsThenFence at hres ⊢
        rw [show ((a :: b :: v₃) ++ fenceTail) = a :: ((b :: v₃) ++ fenceTail) from rfl,
          List.dropWhile_cons]
        simp only [hw, if_true]
        exact hres
      · have hw₂ : wsChar a = false := by simpa using hw
        unfold isWsThenFence
        rw [show ((a :: b :: v₃) ++ fenceTail) = a :: ((b :: v₃) ++ fenceTail) from rfl,
          List.dropWhile_cons]
        simp only [hw₂, Bool.false_eq_true, if_false]
        cases v₃ with
        | nil =>
          simp [startsWithFence, fenceTail,
            show ('\n' == tick) = false from by decide]
        | cons e v₄ =>
          have h3 : startsWithFence (a :: b :: e :: v₄) = false := hnf.1
          simp only [startsWithFence] at h3 ⊢
          exact h3

/-- On a fence-free payload ending in non-whitespace, the lazy group
search consumes exactly the payload. -/
theorem findMinG_spec : ∀ u : List Char, NoFence u = true → lastNonWs u = true →
    ∀ acc, findMinG acc (u ++ fenceTail) = some (acc ++ u) := by
  intro u
  induction u with
  | nil => intro _ h; exact absurd h (by simp [lastNonWs])
  | cons a u₂ ih =>
    intro hnf hl acc
    rw [show ((a :: u₂) ++ fenceTail) = a :: (u₂ ++ fenceTail) from rfl]
    cases u₂ with
    | nil =>
      simp [findMinG, show isWsThenFence fenceTail = true from by decide]
    | cons b u₃ =>
      have hnfp : NoFence (b :: u₃) = true := by
        rw [NoFence_cons, Bool.and_eq_true] at hnf
        exact hnf.2
      have hlp : lastNonWs (b :: u₃) = true := by
        rw [← lastNonWs_cons_cons a]; exact hl
      have hfalse : isWsThenFence ((b :: u₃) ++ fenceTail) = false :=
        isWsThenFence_false _ hnfp hlp
      rw [findMinG_cons, hfalse]
      simp only [Bool.false_eq_true, if_false]
      rw [ih hnfp hlp (acc ++ [a])]
      simp [List.append_assoc]

/-- The succ equation of the whitespace-backtracking loop. -/
theorem tryBodyAux_succ (r : List Char) (k : Nat) :
    tryBodyAux r (k + 1) =
      match findMinG [] (r.drop (k + 1)) with
      | some g => some g
      | none => tryBodyAux r k := rfl

/-- The json-tagged equation of tryAfterTicks. -/
theorem tryAfterTicks_json (rest : List Char) :
    tryAfterTicks ('j' :: 's' :: 'o' :: 'n' :: rest) =
      match tryBody rest with
      | some g => some g
      | none => tryBody ('j' :: 's' :: 'o' :: 'n' :: rest) := rfl

/-- tryAfterTicks on a newline-headed text skips the tag. -/
theorem tryAfterTicks_nl (xs : List Char) :
    tryAfterTicks ('\n' :: xs) = tryBody ('\n' :: xs) := rfl

/-- The cons equation of the leftmost search. -/
theorem findFenceMatch_cons (c : Char) (cs : List Char) :
    findFenceMatch (c :: cs) =
      if startsWithFence (c :: cs) then
        match tryAfterTicks (cs.drop 2) with
        | some g => some g
        | none => findFenceMatch cs
      else findFenceMatch cs := rfl

/-- An all-backtick prefix satisfies startsWithFence. -/
theorem startsWithFence_ticks (xs : List Char) :
    startsWithFence (tick :: tick :: tick :: xs) = true := by
  simp [startsWithFence]

/-- On a newline followed by a fence-free payload and a closing fence
line, the body matcher returns exactly the payload. -/
theorem tryBody_wrapped (u : List Char) (hh : headNonWs u = true)
    (hnf : NoFence u = true) (hl : lastNonWs u = true) :
    tryBody ('\n' :: (u ++ fenceTail)) = some u := by
  cases u with
  | nil => simp [headNonWs] at hh
  | cons c u₂ =>
    have hc : wsChar c = false := by simpa [headNonWs] using hh
    have htw : (('\n' :: ((c :: u₂) ++ fenceTail)).takeWhile wsChar).length = 1 := by
      rw [show ((c :: u₂) ++ fenceTail) = c :: (u₂ ++ fenceTail) from rfl]
      simp [List.takeWhile_cons, hc, show wsChar '\n' = true from by decide]
    unfold tryBody
    rw [htw, show (1 : Nat) = 0 + 1 from rfl, tryBodyAux_succ]
    rw [show (('\n' :: ((c :: u₂) ++ fenceTail)).drop (0 + 1)) = (c :: u₂) ++ fenceTail from rfl]
    rw [findMinG_spec (c :: u₂) hnf hl []]
    simp

/-- The json-tagged wrap is matched and yields exactly the payload. -/
theorem findFenceMatch_json_wrapped (u : List Char) (hh : headNonWs u = true)
    (hl : lastNonWs u = true) (hnf : NoFence u = true) :
    findFenceMatch (jsonHeader ++ (u ++ fenceTail)) = some u := by
  have hbody := tryBody_wrapped u hh hnf hl
  rw [show jsonHeader ++ (u ++ fenceTail) =
      tick :: (tick :: tick :: 'j' :: 's' :: 'o' :: 'n' :: '\n' :: (u ++ fenceTail)) from rfl]
  rw [findFenceMatch_cons]
  rw [if_pos (startsWithFence_ticks ('j' :: 's' :: 'o' :: 'n' :: '\n' :: (u ++ fenceTail)))]
  rw [show ((tick :: tick :: 'j' :: 's' :: 'o' :: 'n' :: '\n' :: (u ++ fenceTail)).drop 2) =
      'j' :: 's' :: 'o' :: 'n' :: ('\n' :: (u ++ fenceTail)) from rfl]
  rw [tryAfterTicks_json, hbody]

/-- The plain wrap is matched and yields exactly the payload. -/
theorem findFenceMatch_plain_wrapped (u : List Char) (hh : headNonWs u = true)
    (hl : lastNonWs u = true) (hnf : NoFence u = true) :
    findFenceMatch (plainHeader ++ (u ++ fenceTail)) = some u := by
  have hbody := tryBody_wrapped u hh hnf hl
  rw [show plainHeader ++ (u ++ fenceTail) =
      tick :: (tick :: tick :: '\n' :: (u ++ fenceTail)) from rfl]
  rw [findFenceMatch_cons]
  rw [if_pos (startsWithFence_ticks ('\n' :: (u ++ fenceTail)))]
  rw [show ((tick :: tick :: '\n' :: (u ++ fenceTail)).drop 2) =
      '\n' :: (u ++ fenceTail) from rfl]
  rw [tryAfterTicks_nl, hbody]

/-- The serialization of a wellformed value is nonempty and starts and
ends with a non-whitespace character. -/
theorem renderChars_head_last : ∀ d : Json, Json.wf d = true →
    headNonWs (renderChars d) = true ∧ lastNonWs (renderChars d) = true := by
  intro d hwf
  cases d with
  | null => exact ⟨by decide, by decide⟩
  | bool b => cases b <;> exact ⟨by decide, by decide⟩
  | num lit =>
    rw [show Json.wf (Json.num lit) = numLitWF lit from rfl] at hwf
    unfold numLitWF at hwf
    rw [Bool.and_eq_true] at hwf
    have hne : lit.data ≠ [] := by
      intro h0
      rw [h0] at hwf
      simp at hwf
    constructor
    · rw [show renderChars (Json.num lit) = lit.data from rfl]
      cases hld : lit.data with
      | nil => exact absurd hld hne
      | cons c cs =>
        have hall := hwf.2
        rw [hld] at hall
        simp only [List.all_cons, Bool.and_eq_true] at hall
        simpa [headNonWs] using hall.1
    · rw [show renderChars (Json.num lit) = lit.data from rfl]
      exact lastNonWs_of_all lit.data hne hwf.2
  | str v =>
    constructor
    · rw [show headNonWs (renderChars (Json.str v)) = !wsChar '"' from rfl]
      decide
    · rw [show renderChars (Json.str v) = ('"' :: renderStrChars v.data) ++ ['"'] from rfl]
      exact lastNonWs_append_single _ '"' (by decide)
  | arr es =>
    constructor
    · rw [show headNonWs (renderChars (Json.arr es)) = !wsChar '[' from rfl]
      decide
    · rw [show renderChars (Json.arr es) =
          ('[' :: joinComma (renderCharsList es)) ++ [']'] from rfl]
      exact lastNonWs_append_single _ ']' (by decide)
  | obj ms =>
    constructor
    · rw [show headNonWs (renderChars (Json.obj ms)) = !wsChar '\x7b' from rfl]
      decide
    · rw [show renderChars (Json.obj ms) =
          ('\x7b' :: joinComma (renderCharsMembers ms)) ++ ['\x7d'] from rfl]
      exact lastNonWs_append_single _ '\x7d' (by decide)

/-! ### C4: fenced and unfenced payloads parse identically -/

/-- C4 (amended).  For every wellformed JSON details value whose
serialization contains no fence delimiter, parsing the serialization
wrapped in a fenced code block (json-tagged or plain) yields the
identical result as parsing it unwrapped. -/
theorem parse_fenced_eq_unfenced (d : Json) (hwf : Json.wf d = true)
    (hnf : NoFence (render d).data = true) :
    parseJsonFromMarkdown (wrapFenceJson (render d)) = parseJsonFromMarkdown (render d) ∧
    parseJsonFromMarkdown (wrapFencePlain (render d)) = parseJsonFromMarkdown (render d) := by
  obtain ⟨hh, hl⟩ := renderChars_head_last d hwf
  rw [show renderChars d = (render d).data from rfl] at hh hl
  have hjson : (wrapFenceJson (render d)).data =
      jsonHeader ++ ((render d).data ++ fenceTail) := by
    unfold wrapFenceJson
    rw [String.data_append, String.data_append]
    rw [show ("```json\n" : String).data = jsonHeader from by decide]
    rw [show ("\n```" : String).data = fenceTail from by decide]
    rw [List.append_assoc]
  have hplain : (wrapFencePlain (render d)).data =
      plainHeader ++ ((render d).data ++ fenceTail) := by
    unfold wrapFencePlain
    rw [String.data_append, String.data_append]
    rw [show ("```\n" : String).data = plainHeader from by decide]
    rw [show ("\n```" : String).data = fenceTail from by decide]
    rw [List.append_assoc]
  have hmJ : findFenceMatch ((wrapFenceJson (render d)).data) = some ((render d).data) := by
    rw [hjson]
    exact findFenceMatch_json_wrapped _ hh hl hnf
  have hmP : findFenceMatch ((wrapFencePlain (render d)).data) = some ((render d).data) := by
    rw [hplain]
    exact findFenceMatch_plain_wrapped _ hh hl hnf
  have hun : findFenceMatch ((render d).data) = none := noFence_findFenceMatch _ hnf
  unfold parseJsonFromMarkdown
  rw [hmJ, hmP, hun]
  exact ⟨rfl, rfl⟩

/-- C4 witness: the amended statement evaluated on an ordinary details
object. -/
theorem parse_fenced_eq_unfenced_witness :
    Json.wf plainDetails = true ∧
    NoFence (render plainDetails).data = true ∧
    (parseJsonFromMarkdown (wrapFenceJson (render plainDetails)) =
       parseJsonFromMarkdown (render plainDetails) ∧
     parseJsonFromMarkdown (wrapFencePlain (render plainDetails)) =
       parseJsonFromMarkdown (render plainDetails)) :=
  ⟨rfl, rfl, parse_fenced_eq_unfenced plainDetails rfl rfl⟩

/-- C4 counterexample: on a details object whose name value embeds
backtick fences, the unwrapped serialization parses to the number 5
(the regex latches onto the inner fences) while the wrapped one parses
to nothing, so the unamended round-trip claim is false. -/
theorem parse_fenced_ne_unfenced_cex :
    Json.wf cexDetails = true ∧
    parseJsonFromMarkdown (wrapFenceJson (render cexDetails)) = none ∧
    parseJsonFromMarkdown (render cexDetails) = some (Json.num ("5")) ∧
    ¬(parseJsonFromMarkdown (wrapFenceJson (render cexDetails)) =
        parseJsonFromMarkdown (render cexDetails)) := by
  refine ⟨rfl, rfl, rfl, ?_⟩
  intro h
  rw [show parseJsonFromMarkdown (wrapFenceJson (render cexDetails)) = none from rfl] at h
  rw [show parseJsonFromMarkdown (render cexDetails) = some (Json.num ("5")) from rfl] at h
  exact Option.noConfusion h

